import Mathlib

/-!
Shallow embedding of `src/app.py` (financialdash2): a single-pass market
dashboard script.  Python floats are modelled as rationals (`ℚ`); each
network-backed lookup (`yfinance` history / option chain, `requests.get`)
is modelled by its outcome, an `Except FetchError` value, and Python
exception propagation is modelled by the `Except` monad: an uncaught
exception in a callee makes the caller's result an `Except.error`.
The script has no `try`/`except` anywhere, so every error propagates.
-/

set_option linter.unusedVariables false

deriving instance DecidableEq for Except

namespace App

/-- An upstream query failed (no data, malformed data, timeout, or the
empty-chain `IndexError` in `get_expected_move`).  The script never
catches any exception, so a single error kind suffices. -/
inductive FetchError where
  | sourceUnavailable
deriving DecidableEq, Repr

/-- Binary classification rendered by `main` and `generate_html`:
`'Risk-On' if risk_score > 0 else 'Risk-Off'` (app.py lines 126 and 172). -/
inductive Classification where
  | RiskOn
  | RiskOff
deriving DecidableEq, Repr

/-- app.py line 126 / 172: `'Risk-On' if risk_score > 0 else 'Risk-Off'`. -/
def classify (risk_score : Int) : Classification :=
  if risk_score > 0 then Classification.RiskOn else Classification.RiskOff

/-- app.py lines 18-24, `get_treasury_spreads`.  Inputs are the outcomes of
the three `yf.Ticker(...).history(...)['Close']` lookups (`^TNX`, `^FVX`,
`^IRX`); each close is divided by 100, and the function returns
`(spread_2s5s, spread_2s10s) = (twxt - fvxt, twxt - tnx)`. -/
def get_treasury_spreads (tnxFetch fvxFetch irxFetch : Except FetchError ℚ) :
    Except FetchError (ℚ × ℚ) := do
  let tnxClose ← tnxFetch
  let fvxClose ← fvxFetch
  let irxClose ← irxFetch
  let tnx := tnxClose / 100
  let fvxt := fvxClose / 100
  let twxt := irxClose / 100
  let spread_2s5s := twxt - fvxt
  let spread_2s10s := twxt - tnx
  return (spread_2s5s, spread_2s10s)

/-- app.py lines 28-32, `get_vix_structure`.  Inputs are the outcomes of the
`^VIX` and `^VIX9D` close lookups; on success returns
`(vix, vix9d, vix9d - vix)`. -/
def get_vix_structure (vixFetch vix9dFetch : Except FetchError ℚ) :
    Except FetchError (ℚ × ℚ × ℚ) := do
  let vix ← vixFetch
  let vix9d ← vix9dFetch
  let term_structure := vix9d - vix
  return (vix, vix9d, term_structure)

/-- One row of an options table: `strike` and `lastPrice` columns. -/
structure OptionRow where
  strike : ℚ
  lastPrice : ℚ
deriving DecidableEq, Repr

/-- The index-0 element of `(series - price).abs().argsort()` picked in
app.py line 41: the first (lowest-index) element of the list minimizing the
absolute distance to `price`; `none` on an empty list. -/
def firstMinAbs (price : ℚ) : List ℚ → Option ℚ
  | [] => none
  | s :: rest =>
    match firstMinAbs price rest with
    | none => some s
    | some t => if |s - price| ≤ |t - price| then some s else some t

/-- app.py lines 35-45, `get_expected_move`.  `chainFetch` is the outcome of
`spy.option_chain()` (calls table, puts table, in row order = ascending
strike order); `priceFetch` the outcome of the underlying close lookup.
Line 41 selects the ATM strike as the strike of the call row nearest the
underlying price; lines 42-43 read the `lastPrice` of the first call row
and first put row at that strike (`.values[0]` raises `IndexError` when no
row matches, and line 41 raises on an empty calls table).  Returns
`(call_price + put_price, atm_strike)`. -/
def get_expected_move (chainFetch : Except FetchError (List OptionRow × List OptionRow))
    (priceFetch : Except FetchError ℚ) : Except FetchError (ℚ × ℚ) := do
  let chain ← chainFetch
  let calls := chain.1
  let puts := chain.2
  let underlying_price ← priceFetch
  match firstMinAbs underlying_price (calls.map OptionRow.strike) with
  | none => throw FetchError.sourceUnavailable
  | some atm_strike =>
    match (calls.filter (fun r => r.strike == atm_strike)).head?,
          (puts.filter (fun r => r.strike == atm_strike)).head? with
    | some c, some p => return (c.lastPrice + p.lastPrice, atm_strike)
    | _, _ => throw FetchError.sourceUnavailable

/-- app.py lines 49-53, `get_fair_value`: `ES=F` close minus `^GSPC` close. -/
def get_fair_value (esFetch spxFetch : Except FetchError ℚ) : Except FetchError ℚ := do
  let es ← esFetch
  let spx ← spxFetch
  let premium_discount := es - spx
  return premium_discount

/-- app.py line 12: the configured keyword list, as character lists
(Python `in` on `str` is case-sensitive substring containment). -/
def HIGH_IMPACT_KEYWORDS : List (List Char) :=
  [String.toList "Fed", String.toList "CPI", String.toList "Jobs",
   String.toList "Powell", String.toList "inflation",
   String.toList "unemployment", String.toList "GDP"]

/-- app.py lines 61-66: the filtering loop of `fetch_headlines`.  Keeps, in
source order, exactly the texts for which
`any(keyword in text for keyword in keywords)` holds. -/
def filter_headlines (keywords : List (List Char)) (texts : List (List Char)) :
    List (List Char) :=
  texts.filter (fun text => keywords.any (fun keyword => decide (keyword <:+: text)))

/-- app.py lines 57-66, `fetch_headlines`.  `pageFetch` is the outcome of
`requests.get(url)` + `h3` text extraction; a network failure raises out of
`requests.get` and, with no `try`/`except` in the function, propagates to
the caller.  On success the keyword filter is applied. -/
def fetch_headlines (pageFetch : Except FetchError (List (List Char))) :
    Except FetchError (List (List Char)) := do
  let texts ← pageFetch
  return filter_headlines HIGH_IMPACT_KEYWORDS texts

/-- app.py lines 70-99, `risk_meter`: sequential `points` accumulation over
the four conditions, starting from 0. -/
def risk_meter (spreads : ℚ × ℚ) (vix_struct : ℚ × ℚ × ℚ)
    (expected_move : ℚ) (premium_discount : ℚ) : Int :=
  let points : Int := 0
  let spread_2s5s := spreads.1
  let spread_2s10s := spreads.2
  let vix := vix_struct.1
  let vix9d := vix_struct.2.1
  let term_structure := vix_struct.2.2
  let points := if spread_2s10s > 0 then points + 1 else points - 1
  let points := if term_structure > 0 then points + 1 else points - 1
  let points := if expected_move < 5 then points + 1 else points - 1
  let points := if premium_discount > 0 then points + 1 else points - 1
  points

/-- Outcomes of the ten upstream queries a run of `main` performs, in the
order app.py issues them. -/
structure Env where
  tnx : Except FetchError ℚ
  fvx : Except FetchError ℚ
  irx : Except FetchError ℚ
  vix : Except FetchError ℚ
  vix9d : Except FetchError ℚ
  chain : Except FetchError (List OptionRow × List OptionRow)
  price : Except FetchError ℚ
  es : Except FetchError ℚ
  spx : Except FetchError ℚ
  page : Except FetchError (List (List Char))
deriving DecidableEq

/-- The observable output of one successful run: the `data` dict of app.py
lines 149-158, the risk score of line 160, the classification label of
lines 126/172, and the filtered headlines. -/
structure RunResult where
  spread_2s5s : ℚ
  spread_2s10s : ℚ
  vix : ℚ
  vix9d : ℚ
  term_structure : ℚ
  expected_move : ℚ
  atm_strike : ℚ
  premium_discount : ℚ
  risk_score : Int
  classification : Classification
  headlines : List (List Char)
deriving DecidableEq, Repr

/-- app.py lines 142-178, `main`: five sequential fetches with no
`try`/`except` anywhere (an exception in any of them propagates and aborts
the run), then the `data` dict, the risk score, and the rendered
classification. -/
def main (env : Env) : Except FetchError RunResult := do
  let spreads ← get_treasury_spreads env.tnx env.fvx env.irx
  let vix_struct ← get_vix_structure env.vix env.vix9d
  let em ← get_expected_move env.chain env.price
  let expected_move := em.1
  let atm_strike := em.2
  let premium_discount ← get_fair_value env.es env.spx
  let headlines ← fetch_headlines env.page
  let risk_score := risk_meter spreads vix_struct expected_move premium_discount
  return { spread_2s5s := spreads.1
           spread_2s10s := spreads.2
           vix := vix_struct.1
           vix9d := vix_struct.2.1
           term_structure := vix_struct.2.2
           expected_move := expected_move
           atm_strike := atm_strike
           premium_discount := premium_discount
           risk_score := risk_score
           classification := classify risk_score
           headlines := headlines }

/-- Spec §4.3 table, yield-curve sub-signal: `+1` if `rateSpread2s10s > 0`,
else `-1` (written from the spec, to be compared with `risk_meter`). -/
def yieldCurveSignal (rateSpread2s10s : ℚ) : Int :=
  if rateSpread2s10s > 0 then 1 else -1

/-- Spec §4.3 table, vol-term-structure sub-signal: `+1` if
`volTermStructure > 0`, else `-1`. -/
def volTermSignal (volTermStructure : ℚ) : Int :=
  if volTermStructure > 0 then 1 else -1

/-- Spec §4.3 table, expected-move sub-signal: `+1` if `expectedMove < 5`,
else `-1`. -/
def expectedMoveSignal (expectedMove : ℚ) : Int :=
  if expectedMove < 5 then 1 else -1

/-- Spec §4.3 table, futures-basis sub-signal: `+1` if `futuresBasis > 0`,
else `-1`. -/
def futuresBasisSignal (futuresBasis : ℚ) : Int :=
  if futuresBasis > 0 then 1 else -1

/-- Whether a run outcome carries a finished assessment (`Except.ok`). -/
def producesAssessment (e : Except FetchError RunResult) : Bool :=
  match e with
  | Except.ok _ => true
  | Except.error _ => false

/-- Query outcomes in which every upstream fetch fails. -/
def envAllFail : Env where
  tnx := Except.error FetchError.sourceUnavailable
  fvx := Except.error FetchError.sourceUnavailable
  irx := Except.error FetchError.sourceUnavailable
  vix := Except.error FetchError.sourceUnavailable
  vix9d := Except.error FetchError.sourceUnavailable
  chain := Except.error FetchError.sourceUnavailable
  price := Except.error FetchError.sourceUnavailable
  es := Except.error FetchError.sourceUnavailable
  spx := Except.error FetchError.sourceUnavailable
  page := Except.error FetchError.sourceUnavailable

/-- Query outcomes in which only the options-chain fetch fails. -/
def envChainFail : Env where
  tnx := Except.ok 400
  fvx := Except.ok 300
  irx := Except.ok 200
  vix := Except.ok 20
  vix9d := Except.ok 18
  chain := Except.error FetchError.sourceUnavailable
  price := Except.ok 100
  es := Except.ok 50
  spx := Except.ok 40
  page := Except.ok []

/-- Query outcomes in which every upstream fetch succeeds. -/
def envOk : Env where
  tnx := Except.ok 400
  fvx := Except.ok 300
  irx := Except.ok 200
  vix := Except.ok 20
  vix9d := Except.ok 18
  chain := Except.ok ([⟨100, 2⟩], [⟨100, 3⟩])
  price := Except.ok 100
  es := Except.ok 50
  spx := Except.ok 40
  page := Except.ok []

/-- The run output `main` produces on `envOk`. -/
def runResultOk : RunResult where
  spread_2s5s := -1
  spread_2s10s := -2
  vix := 20
  vix9d := 18
  term_structure := -2
  expected_move := 5
  atm_strike := 100
  premium_discount := 10
  risk_score := -2
  classification := Classification.RiskOff
  headlines := []

lemma risk_meter_eq_signals (spreads : ℚ × ℚ) (vix_struct : ℚ × ℚ × ℚ)
    (em pd : ℚ) :
    risk_meter spreads vix_struct em pd =
      yieldCurveSignal spreads.2 + volTermSignal vix_struct.2.2 +
        expectedMoveSignal em + futuresBasisSignal pd := by
  simp only [risk_meter, yieldCurveSignal, volTermSignal, expectedMoveSignal,
    futuresBasisSignal]
  split_ifs <;> decide

lemma yieldCurveSignal_pm (x : ℚ) :
    yieldCurveSignal x = 1 ∨ yieldCurveSignal x = -1 := by
  unfold yieldCurveSignal; split_ifs <;> simp

lemma volTermSignal_pm (x : ℚ) :
    volTermSignal x = 1 ∨ volTermSignal x = -1 := by
  unfold volTermSignal; split_ifs <;> simp

lemma expectedMoveSignal_pm (x : ℚ) :
    expectedMoveSignal x = 1 ∨ expectedMoveSignal x = -1 := by
  unfold expectedMoveSignal; split_ifs <;> simp

lemma futuresBasisSignal_pm (x : ℚ) :
    futuresBasisSignal x = 1 ∨ futuresBasisSignal x = -1 := by
  unfold futuresBasisSignal; split_ifs <;> simp

/-- C1: for every snapshot (all four indicator fields are always present in
the code's snapshot), the score returned by `risk_meter` is the sum of the
four independent contributions of the spec's table: +1 or -1 on
`rateSpread2s10s > 0`, `volTermStructure > 0`, `expectedMove < 5`,
`futuresBasis > 0`. -/
theorem risk_meter_sums_four_signals (spreads : ℚ × ℚ)
    (vix_struct : ℚ × ℚ × ℚ) (em pd : ℚ) :
    risk_meter spreads vix_struct em pd =
      yieldCurveSignal spreads.2 + volTermSignal vix_struct.2.2 +
        expectedMoveSignal em + futuresBasisSignal pd :=
  risk_meter_eq_signals spreads vix_struct em pd

/-- C4: the rendered classification is `RiskOn` exactly when the score is
strictly positive, and `RiskOff` exactly when the score is `<= 0`
(including 0). -/
theorem classification_iff_score_pos (s : Int) :
    (classify s = Classification.RiskOn ↔ s > 0) ∧
    (classify s = Classification.RiskOff ↔ s ≤ 0) := by
  unfold classify
  split_ifs with h <;> constructor <;> constructor <;> intro h2 <;>
    first
    | omega
    | simp_all

/-- C9: the score of `risk_meter` always lies in `{-4, -2, 0, 2, 4}`: each
of the four sub-signals contributes exactly +1 or -1, so the total is even
and odd scores such as +3 are unreachable. -/
theorem risk_meter_score_range (spreads : ℚ × ℚ) (vix_struct : ℚ × ℚ × ℚ)
    (em pd : ℚ) :
    risk_meter spreads vix_struct em pd ∈ ([-4, -2, 0, 2, 4] : List Int) := by
  simp only [risk_meter]
  split_ifs <;> decide

/-- C10: the score of `risk_meter` does not depend on `spread_2s5s`, `vix`
or `vix9d`: two inputs agreeing on `spread_2s10s`, `term_structure`,
`expected_move` and `premium_discount` get the same score. -/
theorem risk_meter_independent_of_unused_fields
    (s25 s25a s10 v va v9 v9a ts em pd : ℚ) :
    risk_meter (s25, s10) (v, v9, ts) em pd =
      risk_meter (s25a, s10) (va, v9a, ts) em pd := rfl

/-- C7 counterexample: a failed page fetch makes `fetch_headlines` return
the error itself, not the empty headline list the claim promises. -/
theorem headline_network_failure_not_empty_list :
    fetch_headlines (Except.error FetchError.sourceUnavailable) =
      Except.error FetchError.sourceUnavailable ∧
    fetch_headlines (Except.error FetchError.sourceUnavailable) ≠
      Except.ok [] := ⟨rfl, by decide⟩

/-- C7 (amended): `fetch_headlines` has no error handling: a failed page
fetch propagates to the caller unchanged, and only a successful fetch
yields the keyword-filtered (possibly empty) headline list. -/
theorem fetch_headlines_propagates_failure (e : FetchError)
    (texts : List (List Char)) :
    fetch_headlines (Except.error e) = Except.error e ∧
    fetch_headlines (Except.ok texts) =
      Except.ok (filter_headlines HIGH_IMPACT_KEYWORDS texts) := ⟨rfl, rfl⟩

/-- C8: the headline filter returns a subsequence of its input in source
order, every retained text contains at least one keyword as a
(case-sensitive) contiguous substring, and the empty keyword list yields
the empty output. -/
theorem headline_filter_spec (keywords texts : List (List Char)) :
    (filter_headlines keywords texts).Sublist texts ∧
    (∀ t ∈ filter_headlines keywords texts, ∃ k ∈ keywords, k <:+: t) ∧
    filter_headlines [] texts = [] := by
  refine ⟨List.filter_sublist _, ?_, by simp [filter_headlines]⟩
  intro t ht
  rw [filter_headlines, List.mem_filter] at ht
  obtain ⟨-, h2⟩ := ht
  simp only [List.any_eq_true, decide_eq_true_eq] at h2
  obtain ⟨k, hk, hkt⟩ := h2
  exact ⟨k, hk, hkt⟩

lemma exceptBind_ok {α β : Type} {x : Except FetchError α}
    {f : α → Except FetchError β} {b : β} (h : x >>= f = Except.ok b) :
    ∃ a, x = Except.ok a ∧ f a = Except.ok b := by
  cases x with
  | error e => exact absurd h (by simp [Bind.bind, Except.bind])
  | ok a => exact ⟨a, rfl, h⟩

lemma get_treasury_spreads_ok_inv {a b c : Except FetchError ℚ} {s : ℚ × ℚ}
    (h : get_treasury_spreads a b c = Except.ok s) :
    (∃ q, a = Except.ok q) ∧ (∃ q, b = Except.ok q) ∧ (∃ q, c = Except.ok q) := by
  cases a <;> cases b <;> cases c <;>
    simp_all [get_treasury_spreads, Bind.bind, Except.bind]

lemma get_vix_structure_ok_inv {a b : Except FetchError ℚ} {vs : ℚ × ℚ × ℚ}
    (h : get_vix_structure a b = Except.ok vs) :
    (∃ q, a = Except.ok q) ∧ (∃ q, b = Except.ok q) := by
  cases a <;> cases b <;> simp_all [get_vix_structure, Bind.bind, Except.bind]

lemma get_vix_structure_ok_shape {a b : Except FetchError ℚ} {vs : ℚ × ℚ × ℚ}
    (h : get_vix_structure a b = Except.ok vs) : vs.2.2 = vs.2.1 - vs.1 := by
  cases a with
  | error e => exact absurd h (by simp [get_vix_structure, Bind.bind, Except.bind])
  | ok v =>
    cases b with
    | error e =>
      exact absurd h (by simp [get_vix_structure, Bind.bind, Except.bind])
    | ok v9 =>
      have hv : vs = (v, v9, v9 - v) := by
        simpa [get_vix_structure, Bind.bind, Except.bind, pure, Except.pure]
          using h.symm
      subst hv; rfl

lemma get_expected_move_ok_inv
    {ch : Except FetchError (List OptionRow × List OptionRow)}
    {pf : Except FetchError ℚ} {em : ℚ × ℚ}
    (h : get_expected_move ch pf = Except.ok em) :
    (∃ c, ch = Except.ok c) ∧ (∃ q, pf = Except.ok q) := by
  cases ch <;> cases pf <;>
    simp_all [get_expected_move, Bind.bind, Except.bind]

lemma get_fair_value_ok_inv {a b : Except FetchError ℚ} {pd : ℚ}
    (h : get_fair_value a b = Except.ok pd) :
    (∃ q, a = Except.ok q) ∧ (∃ q, b = Except.ok q) := by
  cases a <;> cases b <;> simp_all [get_fair_value, Bind.bind, Except.bind]

lemma fetch_headlines_ok_inv {pg : Except FetchError (List (List Char))}
    {hl : List (List Char)} (h : fetch_headlines pg = Except.ok hl) :
    ∃ p, pg = Except.ok p := by
  cases pg <;> simp_all [fetch_headlines, Bind.bind, Except.bind]

lemma main_ok_inv {env : Env} {r : RunResult} (h : main env = Except.ok r) :
    ∃ spreads vs em pd hl,
      get_treasury_spreads env.tnx env.fvx env.irx = Except.ok spreads ∧
      get_vix_structure env.vix env.vix9d = Except.ok vs ∧
      get_expected_move env.chain env.price = Except.ok em ∧
      get_fair_value env.es env.spx = Except.ok pd ∧
      fetch_headlines env.page = Except.ok hl ∧
      r = { spread_2s5s := spreads.1
            spread_2s10s := spreads.2
            vix := vs.1
            vix9d := vs.2.1
            term_structure := vs.2.2
            expected_move := em.1
            atm_strike := em.2
            premium_discount := pd
            risk_score := risk_meter spreads vs em.1 pd
            classification := classify (risk_meter spreads vs em.1 pd)
            headlines := hl } := by
  unfold main at h
  obtain ⟨spreads, h1, h⟩ := exceptBind_ok h
  obtain ⟨vs, h2, h⟩ := exceptBind_ok h
  obtain ⟨em, h3, h⟩ := exceptBind_ok h
  obtain ⟨pd, h4, h⟩ := exceptBind_ok h
  obtain ⟨hl, h5, h⟩ := exceptBind_ok h
  refine ⟨spreads, vs, em, pd, hl, h1, h2, h3, h4, h5, ?_⟩
  simpa [pure, Except.pure] using h.symm

/-- C2 counterexample: when every upstream fetch fails, the run returns the
propagated error — no assessment with `score = 0` / `RiskOff` is produced. -/
theorem all_fetches_fail_returns_no_assessment :
    main envAllFail = Except.error FetchError.sourceUnavailable ∧
    producesAssessment (main envAllFail) = false := ⟨rfl, rfl⟩

/-- C2 (amended): the code has no abstention mechanism: each of the four
sub-signals always contributes exactly +1 or -1 (never 0) and the score is
their sum; and when every fetch fails, `main` propagates the error instead
of returning `score = 0`, `classification = RiskOff`. -/
theorem risk_meter_no_abstention_and_all_fail_aborts :
    (∀ (spreads : ℚ × ℚ) (vix_struct : ℚ × ℚ × ℚ) (em pd : ℚ),
        (yieldCurveSignal spreads.2 = 1 ∨ yieldCurveSignal spreads.2 = -1) ∧
        (volTermSignal vix_struct.2.2 = 1 ∨ volTermSignal vix_struct.2.2 = -1) ∧
        (expectedMoveSignal em = 1 ∨ expectedMoveSignal em = -1) ∧
        (futuresBasisSignal pd = 1 ∨ futuresBasisSignal pd = -1) ∧
        risk_meter spreads vix_struct em pd =
          yieldCurveSignal spreads.2 + volTermSignal vix_struct.2.2 +
            expectedMoveSignal em + futuresBasisSignal pd) ∧
    main envAllFail = Except.error FetchError.sourceUnavailable := by
  refine ⟨fun spreads vix_struct em pd => ?_, rfl⟩
  exact ⟨yieldCurveSignal_pm _, volTermSignal_pm _, expectedMoveSignal_pm _,
    futuresBasisSignal_pm _, risk_meter_eq_signals spreads vix_struct em pd⟩

/-- C3 counterexample: with every fetch succeeding except the options-chain
fetch, `main` aborts with the propagated error — a single failed fetch
aborts the whole run, and no partial snapshot is produced. -/
theorem single_failed_fetch_aborts_run :
    main envChainFail = Except.error FetchError.sourceUnavailable ∧
    producesAssessment (main envChainFail) = false := ⟨rfl, rfl⟩

/-- C3 (amended): `main` performs no per-fetch error isolation: it produces
a run result only when every one of the ten upstream queries succeeded; a
`SourceUnavailable` from any fetch propagates out and aborts the run. -/
theorem main_ok_requires_all_fetches (env : Env) (r : RunResult)
    (h : main env = Except.ok r) :
    (∃ q, env.tnx = Except.ok q) ∧ (∃ q, env.fvx = Except.ok q) ∧
    (∃ q, env.irx = Except.ok q) ∧ (∃ q, env.vix = Except.ok q) ∧
    (∃ q, env.vix9d = Except.ok q) ∧ (∃ c, env.chain = Except.ok c) ∧
    (∃ q, env.price = Except.ok q) ∧ (∃ q, env.es = Except.ok q) ∧
    (∃ q, env.spx = Except.ok q) ∧ (∃ p, env.page = Except.ok p) := by
  obtain ⟨spreads, vs, em, pd, hl, h1, h2, h3, h4, h5, -⟩ := main_ok_inv h
  obtain ⟨ha, hb, hc⟩ := get_treasury_spreads_ok_inv h1
  obtain ⟨hd, he⟩ := get_vix_structure_ok_inv h2
  obtain ⟨hf, hg⟩ := get_expected_move_ok_inv h3
  obtain ⟨hh, hi⟩ := get_fair_value_ok_inv h4
  obtain ⟨p, hj⟩ := fetch_headlines_ok_inv h5
  exact ⟨ha, hb, hc, hd, he, hf, hg, hh, hi, ⟨p, hj⟩⟩

/-- C3 witness: on `envOk` every fetch succeeds, `main` returns
`runResultOk`, and the amended theorem applies. -/
theorem main_ok_requires_all_fetches_witness :
    (∃ q, envOk.tnx = Except.ok q) ∧ (∃ q, envOk.fvx = Except.ok q) ∧
    (∃ q, envOk.irx = Except.ok q) ∧ (∃ q, envOk.vix = Except.ok q) ∧
    (∃ q, envOk.vix9d = Except.ok q) ∧ (∃ c, envOk.chain = Except.ok c) ∧
    (∃ q, envOk.price = Except.ok q) ∧ (∃ q, envOk.es = Except.ok q) ∧
    (∃ q, envOk.spx = Except.ok q) ∧ (∃ p, envOk.page = Except.ok p) :=
  main_ok_requires_all_fetches envOk runResultOk (by
    norm_num [main, envOk, runResultOk, get_treasury_spreads, get_vix_structure,
      get_expected_move, get_fair_value, fetch_headlines, filter_headlines,
      firstMinAbs, risk_meter, classify, HIGH_IMPACT_KEYWORDS,
      Bind.bind, Except.bind, pure, Except.pure])

/-- C5: `term_structure` is always `vix9d - vix`: on a successful pair of
vol fetches `get_vix_structure` returns exactly `(vix, vix9d, vix9d - vix)`,
a failed fetch propagates (so no snapshot with a missing vol field exists),
and every run result of `main` satisfies
`term_structure = vix9d - vix`. -/
theorem vol_term_structure_invariant :
    (∀ v v9 : ℚ,
        get_vix_structure (Except.ok v) (Except.ok v9) =
          Except.ok (v, v9, v9 - v)) ∧
    (∀ (e : FetchError) (v9f : Except FetchError ℚ),
        get_vix_structure (Except.error e) v9f = Except.error e) ∧
    (∀ (v : ℚ) (e : FetchError),
        get_vix_structure (Except.ok v) (Except.error e) = Except.error e) ∧
    (∀ (env : Env) (r : RunResult), main env = Except.ok r →
        r.term_structure = r.vix9d - r.vix) := by
  refine ⟨fun v v9 => rfl, fun e v9f => rfl, fun v e => rfl, ?_⟩
  intro env r h
  obtain ⟨spreads, vs, em, pd, hl, -, h2, -, -, -, hr⟩ := main_ok_inv h
  subst hr
  exact get_vix_structure_ok_shape h2

lemma firstMinAbs_eq_none {price : ℚ} {l : List ℚ}
    (h : firstMinAbs price l = none) : l = [] := by
  cases l with
  | nil => rfl
  | cons a t =>
    exfalso
    simp only [firstMinAbs] at h
    cases hm : firstMinAbs price t with
    | none => simp [hm] at h
    | some b =>
      rw [hm] at h
      dsimp only at h
      split_ifs at h

lemma firstMinAbs_leftmost_min (price : ℚ) (l : List ℚ) (s : ℚ)
    (h : firstMinAbs price l = some s) :
    ∃ i, ∃ hi : i < l.length, l.get ⟨i, hi⟩ = s ∧
      (∀ t ∈ l, |s - price| ≤ |t - price|) ∧
      ∀ j, ∀ hj : j < l.length, j < i →
        |s - price| < |l.get ⟨j, hj⟩ - price| := by
  induction l generalizing s with
  | nil => simp [firstMinAbs] at h
  | cons a tl ih =>
    simp only [firstMinAbs] at h
    cases hm : firstMinAbs price tl with
    | none =>
      rw [hm] at h
      dsimp only at h
      simp only [Option.some.injEq] at h
      subst h
      have htl : tl = [] := firstMinAbs_eq_none hm
      subst htl
      refine ⟨0, by simp, rfl, ?_, ?_⟩
      · intro t ht
        rw [List.mem_singleton] at ht
        subst ht
        exact le_refl _
      · intro j hj hlt
        exact absurd hlt (Nat.not_lt_zero j)
    | some b =>
      rw [hm] at h
      dsimp only at h
      obtain ⟨i, hi, hget, hmin, hfirst⟩ := ih b hm
      split_ifs at h with hc
      · simp only [Option.some.injEq] at h
        subst h
        refine ⟨0, by simp, rfl, ?_, ?_⟩
        · intro t ht
          rcases List.mem_cons.mp ht with rfl | htl
          · exact le_refl _
          · exact le_trans hc (hmin t htl)
        · intro j hj hlt
          exact absurd hlt (Nat.not_lt_zero j)
      · simp only [Option.some.injEq] at h
        subst h
        refine ⟨i + 1, Nat.succ_lt_succ hi, hget, ?_, ?_⟩
        · intro t ht
          rcases List.mem_cons.mp ht with rfl | htl
          · exact le_of_lt (not_le.mp hc)
          · exact hmin t htl
        · intro j hj hlt
          cases j with
          | zero => exact not_le.mp hc
          | succ k =>
            have hk : k < tl.length := Nat.lt_of_succ_lt_succ hj
            exact hfirst k hk (Nat.lt_of_succ_lt_succ hlt)

/-- C6: `get_expected_move` propagates an unavailable chain, fails (rather
than returning data) on an empty calls table, and on success returns the
sum of the last call price and last put price at the selected strike
together with the strike, where the selected strike is the first element
of the calls table minimizing the absolute distance to the underlying
price: it is nearest among all call strikes and every earlier strike is
strictly farther (ties go to the first ascending match since the table is
in ascending strike order). -/
theorem expected_move_spec :
    (∀ (pf : Except FetchError ℚ) (e : FetchError),
        get_expected_move (Except.error e) pf = Except.error e) ∧
    (∀ (puts : List OptionRow) (price : ℚ),
        get_expected_move (Except.ok ([], puts)) (Except.ok price) =
          Except.error FetchError.sourceUnavailable) ∧
    (∀ (calls puts : List OptionRow) (price s : ℚ) (c p : OptionRow),
        firstMinAbs price (calls.map OptionRow.strike) = some s →
        (calls.filter (fun r => r.strike == s)).head? = some c →
        (puts.filter (fun r => r.strike == s)).head? = some p →
        get_expected_move (Except.ok (calls, puts)) (Except.ok price) =
          Except.ok (c.lastPrice + p.lastPrice, s)) ∧
    (∀ (calls : List OptionRow) (price s : ℚ),
        firstMinAbs price (calls.map OptionRow.strike) = some s →
        ∃ i, ∃ hi : i < (calls.map OptionRow.strike).length,
          (calls.map OptionRow.strike).get ⟨i, hi⟩ = s ∧
          (∀ t ∈ calls.map OptionRow.strike, |s - price| ≤ |t - price|) ∧
          ∀ j, ∀ hj : j < (calls.map OptionRow.strike).length, j < i →
            |s - price| < |(calls.map OptionRow.strike).get ⟨j, hj⟩ - price|) := by
  refine ⟨fun pf e => rfl, fun puts price => rfl, ?_, ?_⟩
  · intro calls puts price s c p hfm hc hp
    simp [get_expected_move, Bind.bind, Except.bind, pure, Except.pure,
      hfm, hc, hp]
  · intro calls price s hfm
    exact firstMinAbs_leftmost_min price (calls.map OptionRow.strike) s hfm

end App
